import Mathlib

/-!
Shallow embedding of the room-membership endpoints of
`backend/endpoints/rooms.py` (the functions `add_to_room`, `remove_mem`
and `remove_member`) and theorems settling the specification claims
about them.

Python dicts are modelled as insertion-ordered association lists with
unique keys; the external document store (`utils.db.DataStorage`,
`utils.room_utils.get_room`, both outside `src/`) and the authenticated
request context are passed explicitly, following the store-adapter
contract of the specification (`fetch -> Room | NotFound`,
`persist -> Ack | Failure`).
-/

namespace ZcMessaging

/-- Embeds `schema.room.RoomType`: the three room types the endpoints test. -/
inductive RoomType
  | DM
  | GROUP_DM
  | CHANNEL
  deriving DecidableEq, Repr

/-- Embeds `schema.room.Role`. -/
inductive Role
  | MEMBER
  | ADMIN
  deriving DecidableEq, Repr

/-- One value of the `room_members` mapping.  Per the store interface the
document maps a member id to a record carrying `role`; the endpoints
read nothing else of it.  (`add_to_room` reads it as `member["role"]`,
`remove_member` as `member.role`; both are the `role` field here.) -/
structure RoomMember where
  role : Role
  deriving DecidableEq, Repr

/-- The `room_members` dict of a room document, as an insertion-ordered
association list whose keys are unique. -/
abbrev Members := List (String × RoomMember)

/-- Python `d.get(k)` on the members dict (also the `k in d` test): the
value at the key, if present. -/
def mget : Members → String → Option RoomMember
  | [], _ => none
  | (k', v) :: rest, k => if k' = k then some v else mget rest k

/-- Python `d[k] = v` on a dict: overwrite in place when the key is
present, otherwise append (CPython insertion order). -/
def minsert : Members → String → RoomMember → Members
  | [], k, v => [(k, v)]
  | (k', v') :: rest, k, v =>
      if k' = k then (k, v) :: rest else (k', v') :: minsert rest k v

/-- Python `d.update(news)`: insert the entries of `news` in order,
overwriting entries with the same key. -/
def mupdate (ms : Members) (news : Members) : Members :=
  news.foldl (fun acc kv => minsert acc kv.1 kv.2) ms

/-- Python `d.pop(k, default)` on the members dict: `none` when the key
is absent (the `"not_found"` default of line 144), otherwise the dict
with the entry removed. -/
def mpop : Members → String → Option Members
  | [], _ => none
  | (k', v') :: rest, k =>
      if k' = k then some rest
      else (mpop rest k).map (fun r => (k', v') :: r)

/-- Python `d.keys()` of the members dict. -/
def memKeys (ms : Members) : List String := ms.map Prod.fst

/-- The room document returned by `utils.room_utils.get_room`, keeping
exactly the fields the two endpoints read: `id`, `room_type` and
`room_members`. -/
structure Room where
  id : String
  room_type : RoomType
  room_members : Members
  deriving DecidableEq, Repr

/-- What one endpoint call produces: a 200 response carrying the working
copy of the room, a raised `HTTPException` with its status code and
detail, or an uncaught Python exception propagating out of the
handler. -/
inductive Outcome
  | ok (room : Room)
  | err (statusCode : Nat) (detail : String)
  | pyCrash (exc : String)
  deriving DecidableEq, Repr

/-- Observable effects of one `add_to_room` call: the response, the
`DB.update` writes actually executed against the store (document id with
the `room_members` payload), and whether the member-add notification
task was scheduled on `background_tasks`. -/
structure AddEffects where
  response : Outcome
  writes : List (String × Members)
  notified : Bool
  deriving DecidableEq, Repr

/-- Lines 115-123 of `rooms.py`: the GROUP_DM branch iterates the new
members in order and, before each single insertion, raises
`400 Bad Request` when the size of the working copy is already at least
9; `Except.error` is that raised exception. -/
def groupDmInsert : Members → Members → Except Unit Members
  | curr, [] => Except.ok curr
  | curr, (p, v) :: rest =>
      if 9 ≤ (memKeys curr).length then Except.error ()
      else groupDmInsert (minsert curr p v) rest

/-- Endpoint `add_to_room` (rooms.py lines 77-139).  `fetched` is what `get_room`
returned (`none` when the room does not exist), `new_member` the request
body's mapping, `member_id` the authenticated actor, `room_id` the path
parameter used as the update's document id, and `storeOk` whether the
store acknowledges the executed `DB.update` (adapter contract
`persist -> Ack | Failure`). -/
def add_to_room (fetched : Option Room) (new_member : Members)
    (member_id : String) (room_id : String) (storeOk : Bool) : AddEffects :=
  match fetched with
  | none =>
      -- line 102 runs before the `room is None` test of line 104:
      -- `room.get("room_members")` on `None` raises AttributeError.
      { response := Outcome.pyCrash ("AttributeError"), writes := [], notified := false }
  | some room =>
      -- line 102: the actor's membership record
      let member := mget room.room_members member_id
      -- line 104 (`room is None` is necessarily false on this branch)
      if room.room_type = RoomType.DM then
        { response := Outcome.err 403 "DM room or not found",
          writes := [], notified := false }
      -- line 107
      else if (member.map RoomMember.role) ≠ some Role.ADMIN then
        { response := Outcome.err 401 "member not in room or not an admin",
          writes := [], notified := false }
      else
        -- lines 112-113: CHANNEL merge into the working copy
        let ms1 := if room.room_type = RoomType.CHANNEL then
            mupdate room.room_members new_member else room.room_members
        -- lines 115-123: GROUP_DM incremental-limit loop
        match (if room.room_type = RoomType.GROUP_DM then
            groupDmInsert ms1 new_member else Except.ok ms1) with
        | Except.error _ =>
            { response := Outcome.err 400 "the max number for a Group_DM is 9",
              writes := [], notified := false }
        | Except.ok ms2 =>
            -- lines 125-128: the update is executed; lines 130-135: the
            -- publish task is scheduled; lines 137-139: the result of the
            -- update decides between 200 and 424.
            { response :=
                if storeOk then Outcome.ok { room with room_members := ms2 }
                else Outcome.err 424 "failed to add new members to room",
              writes := [(room_id, ms2)],
              notified := true }

/-- Observable effects of one remove call: the response and the
`DB.update` writes actually executed against the store. -/
structure RemoveEffects where
  response : Outcome
  writes : List (String × Members)
  deriving DecidableEq, Repr

/-- Runtime shape of the value bound to `update_room` on line 152 of
`rooms.py`.  That line calls the async `DataStorage.update` without
`await` (compare line 126 and messages.py line 213, where it is
awaited), so the bound value is a coroutine object and the update body
never runs. -/
inductive PyShape
  | noneVal
  | dictVal
  | coroutineVal
  deriving DecidableEq, Repr

/-- Helper `remove_mem` (rooms.py lines 142-163).  After a successful pop, the
un-awaited `DB.update` of line 152 creates a coroutine and issues no
store write; the line 154 test (`update_room is None or
type(update_room) is dict`) is false on a coroutine, and line 161 then
calls `.dict()` on `room_obj`, a plain dict (see the subscripting and
`.pop` on lines 144 and 152), raising AttributeError. -/
def remove_mem (room_obj : Room) (mem_id : String) : RemoveEffects :=
  match mpop room_obj.room_members mem_id with
  | none =>
      { response := Outcome.err 404 "user not a member of the room", writes := [] }
  | some _ =>
      let update_room := PyShape.coroutineVal
      if update_room = PyShape.noneVal ∨ update_room = PyShape.dictVal then
        { response := Outcome.err 424 "unable to remove room member", writes := [] }
      else
        { response := Outcome.pyCrash ("AttributeError"), writes := [] }

/-- Endpoint `remove_member` (rooms.py lines 166-221): fetch, room-exists check
(line 193), CHANNEL-only check (line 199), actor-membership check
(line 205), then either self-removal with no role check (line 211) or
other-removal gated on the actor's ADMIN role (line 215), both ending in
`remove_mem`. -/
def remove_member (fetched : Option Room) (member_id : String)
    (mem_id : String) : RemoveEffects :=
  match fetched with
  | none =>
      { response := Outcome.err 404 "room does not exist", writes := [] }
  | some room_obj =>
      if room_obj.room_type ≠ RoomType.CHANNEL then
        { response := Outcome.err 403 "unable to remove room member", writes := [] }
      else
        match mget room_obj.room_members member_id with
        | none =>
            -- line 205: `member_id not in room_obj["room_members"]`
            { response := Outcome.err 404 "user not a member of the room", writes := [] }
        | some member =>
            if member_id = mem_id then
              remove_mem room_obj member_id
            else if member.role ≠ Role.ADMIN then
              { response := Outcome.err 403 "unable to remove room member", writes := [] }
            else
              remove_mem room_obj mem_id

/-- The `room_members` stored for the room after a call: the store only
changes through an executed, acknowledged `DB.update`. -/
def storeAfter (orig : Members) (writes : List (String × Members))
    (storeOk : Bool) : Members :=
  match writes with
  | [] => orig
  | (_, ms) :: _ => if storeOk then ms else orig

/-! Concrete fixtures used by counterexamples and witnesses. -/

/-- A member record with the ADMIN role. -/
def adminMem : RoomMember := ⟨Role.ADMIN⟩

/-- A member record with the plain MEMBER role. -/
def plainMem : RoomMember := ⟨Role.MEMBER⟩

/-- An eight-entry membership dict whose first member is an admin. -/
def eightMembers : Members :=
  [("m1", adminMem), ("m2", plainMem), ("m3", plainMem), ("m4", plainMem),
   ("m5", plainMem), ("m6", plainMem), ("m7", plainMem), ("m8", plainMem)]

/-- A nine-entry membership dict whose first member is an admin. -/
def nineMembers : Members := eightMembers ++ [("m9", plainMem)]

/-- A GROUP_DM room currently holding 8 members. -/
def groupDmRoom8 : Room := ⟨"g8", RoomType.GROUP_DM, eightMembers⟩

/-- A GROUP_DM room currently holding 9 members. -/
def groupDmRoom9 : Room := ⟨"g9", RoomType.GROUP_DM, nineMembers⟩

/-- A CHANNEL room with admin alice and plain member bob. -/
def channelRoom : Room :=
  ⟨"ch1", RoomType.CHANNEL, [("alice", adminMem), ("bob", plainMem)]⟩

/-- A DM room with its two creation-time members. -/
def dmRoom : Room :=
  ⟨"dm1", RoomType.DM, [("alice", adminMem), ("bob", plainMem)]⟩

/-- A two-entry new-member batch. -/
def twoNew : Members := [("n1", plainMem), ("n2", plainMem)]

/-! Helper lemmas about the dict model. -/

theorem memKeys_cons (k : String) (v : RoomMember) (tl : Members) :
    memKeys ((k, v) :: tl) = k :: memKeys tl := rfl

theorem length_memKeys (ms : Members) : (memKeys ms).length = ms.length :=
  List.length_map ms Prod.fst

theorem mget_minsert (ms : Members) (k : String) (v : RoomMember) (k' : String) :
    mget (minsert ms k v) k' = if k' = k then some v else mget ms k' := by
  induction ms with
  | nil =>
      rcases eq_or_ne k k' with h | h
      · subst h; simp [minsert, mget]
      · simp [minsert, mget, h, Ne.symm h]
  | cons hd tl ih =>
      obtain ⟨k0, v0⟩ := hd
      by_cases h0 : k0 = k
      · subst h0
        rcases eq_or_ne k0 k' with h | h
        · subst h; simp [minsert, mget]
        · simp [minsert, mget, h, Ne.symm h]
      · rcases eq_or_ne k0 k' with h | h
        · subst h
          have : k0 ≠ k := h0
          simp [minsert, mget, h0, Ne.symm this, ih]
        · simp [minsert, mget, h0, h, ih]

theorem mget_eq_none_iff (ms : Members) (k : String) :
    mget ms k = none ↔ k ∉ memKeys ms := by
  induction ms with
  | nil => simp [mget, memKeys]
  | cons hd tl ih =>
      obtain ⟨k0, v0⟩ := hd
      by_cases h : k0 = k
      · subst h; simp [mget, memKeys_cons]
      · simp [mget, memKeys_cons, h, Ne.symm h, ih]

theorem length_minsert_of_not_mem (ms : Members) (k : String) (v : RoomMember)
    (h : k ∉ memKeys ms) : (minsert ms k v).length = ms.length + 1 := by
  induction ms with
  | nil => simp [minsert]
  | cons hd tl ih =>
      obtain ⟨k0, v0⟩ := hd
      rw [memKeys_cons] at h
      have hk : k0 ≠ k := fun e => h (by simp [e])
      have h' : k ∉ memKeys tl := fun m => h (List.mem_cons_of_mem _ m)
      simp [minsert, hk, ih h']

theorem mupdate_nil (ms : Members) : mupdate ms [] = ms := rfl

theorem mupdate_cons (ms : Members) (k : String) (v : RoomMember) (rest : Members) :
    mupdate ms ((k, v) :: rest) = mupdate (minsert ms k v) rest := rfl

theorem mget_mupdate (ms news : Members) (k : String)
    (hnd : (memKeys news).Nodup) :
    mget (mupdate ms news) k =
      match mget news k with
      | some v => some v
      | none => mget ms k := by
  induction news generalizing ms with
  | nil => simp [mupdate, mget]
  | cons hd rest ih =>
      obtain ⟨k0, v0⟩ := hd
      rw [memKeys_cons, List.nodup_cons] at hnd
      rw [mupdate_cons, ih _ hnd.2]
      by_cases h : k0 = k
      · subst h
        have hnone : mget rest k0 = none := (mget_eq_none_iff rest k0).mpr hnd.1
        simp [mget, hnone, mget_minsert]
      · cases hr : mget rest k with
        | none => simp [mget, h, hr, mget_minsert, Ne.symm h]
        | some w => simp [mget, h, hr]

theorem mpop_eq_none_iff (ms : Members) (k : String) :
    mpop ms k = none ↔ mget ms k = none := by
  induction ms with
  | nil => simp [mpop, mget]
  | cons hd tl ih =>
      obtain ⟨k0, v0⟩ := hd
      by_cases h : k0 = k <;> simp [mpop, mget, h, ih]

/-! Helper lemmas about the embedded endpoints. -/

/-- The GROUP_DM loop rejects as soon as it starts on a full dict. -/
theorem groupDmInsert_full (ms : Members) (p : String) (v : RoomMember)
    (rest : Members) (hlen : 9 ≤ ms.length) :
    groupDmInsert ms ((p, v) :: rest) = Except.error () := by
  simp [groupDmInsert, length_memKeys, hlen]

/-- On an 8-member dict and a fresh first new member, the GROUP_DM loop
performs the first insertion and rejects before the second. -/
theorem groupDmInsert_crossing (ms : Members) (p1 p2 : String)
    (v1 v2 : RoomMember) (rest : Members) (hlen : ms.length = 8)
    (hfresh : p1 ∉ memKeys ms) :
    groupDmInsert ms ((p1, v1) :: (p2, v2) :: rest) = Except.error () := by
  have h9 : (minsert ms p1 v1).length = 9 := by
    rw [length_minsert_of_not_mem ms p1 v1 hfresh, hlen]
  have hlt : ¬ 9 ≤ (memKeys ms).length := by
    rw [length_memKeys, hlen]; decide
  rw [groupDmInsert, if_neg hlt]
  exact groupDmInsert_full _ _ _ _ (by rw [h9])

/-- Function `remove_mem` never executes a store write (the `DB.update` of line
152 is not awaited, so its body never runs). -/
theorem remove_mem_writes (room : Room) (mem : String) :
    (remove_mem room mem).writes = [] := by
  cases hp : mpop room.room_members mem <;> simp [remove_mem, hp]

/-- Function `remove_mem` on an absent key: the pop defaults and line 146 raises
`404`. -/
theorem remove_mem_absent (room : Room) (mem : String)
    (h : mget room.room_members mem = none) :
    remove_mem room mem =
      { response := Outcome.err 404 "user not a member of the room", writes := [] } := by
  have hp : mpop room.room_members mem = none := (mpop_eq_none_iff _ _).mpr h
  simp [remove_mem, hp]

/-- Function `remove_mem` on a present key: the pop succeeds and the handler then
raises AttributeError (lines 152-161), issuing no store write. -/
theorem remove_mem_present (room : Room) (mem : String)
    (h : mget room.room_members mem ≠ none) :
    remove_mem room mem =
      { response := Outcome.pyCrash ("AttributeError"), writes := [] } := by
  cases hp : mpop room.room_members mem with
  | none => exact absurd ((mpop_eq_none_iff _ _).mp hp) h
  | some r => simp [remove_mem, hp]

/-- Function `remove_member` never executes a store write, on any input. -/
theorem remove_member_writes (fetched : Option Room) (actor target : String) :
    (remove_member fetched actor target).writes = [] := by
  cases fetched with
  | none => rfl
  | some room =>
      by_cases hch : room.room_type ≠ RoomType.CHANNEL
      · simp [remove_member, hch]
      · cases hm : mget room.room_members actor with
        | none => simp [remove_member, hch, hm]
        | some member =>
            by_cases hself : actor = target
            · subst hself
              simp [remove_member, hch, hm, remove_mem_writes]
            · by_cases hrole : member.role ≠ Role.ADMIN
              · simp [remove_member, hch, hm, hself, hrole]
              · simp [remove_member, hch, hm, hself, hrole, remove_mem_writes]

/-- Exhaustive case shape of one `add_to_room` call: the AttributeError
path for a missing room, the three policy-deny paths (each issuing no
write and scheduling no notification), or the persist path (one executed
write, notification scheduled, response decided by the store's ack). -/
theorem add_to_room_shape (fetched : Option Room) (news : Members)
    (actor rid : String) (ok : Bool) :
    (fetched = none ∧
      add_to_room fetched news actor rid ok =
        { response := Outcome.pyCrash ("AttributeError"), writes := [], notified := false }) ∨
    (∃ room, fetched = some room ∧ room.room_type = RoomType.DM ∧
      add_to_room fetched news actor rid ok =
        { response := Outcome.err 403 "DM room or not found",
          writes := [], notified := false }) ∨
    (∃ room, fetched = some room ∧
      add_to_room fetched news actor rid ok =
        { response := Outcome.err 401 "member not in room or not an admin",
          writes := [], notified := false }) ∨
    (∃ room, fetched = some room ∧ room.room_type = RoomType.GROUP_DM ∧
      add_to_room fetched news actor rid ok =
        { response := Outcome.err 400 "the max number for a Group_DM is 9",
          writes := [], notified := false }) ∨
    (∃ room ms2, fetched = some room ∧
      add_to_room fetched news actor rid ok =
        { response := if ok then Outcome.ok { room with room_members := ms2 }
            else Outcome.err 424 "failed to add new members to room",
          writes := [(rid, ms2)], notified := true }) := by
  cases fetched with
  | none => exact Or.inl ⟨rfl, rfl⟩
  | some room =>
      by_cases hdm : room.room_type = RoomType.DM
      · exact Or.inr (Or.inl ⟨room, rfl, hdm, by simp [add_to_room, hdm]⟩)
      · by_cases hadm :
            (mget room.room_members actor).map RoomMember.role = some Role.ADMIN
        · cases hgi : (if room.room_type = RoomType.GROUP_DM then
              groupDmInsert (if room.room_type = RoomType.CHANNEL then
                mupdate room.room_members news else room.room_members) news
            else Except.ok (if room.room_type = RoomType.CHANNEL then
                mupdate room.room_members news else room.room_members)) with
          | error e =>
              refine Or.inr (Or.inr (Or.inr (Or.inl ⟨room, rfl, ?_, ?_⟩)))
              · by_contra hng
                rw [if_neg hng] at hgi
                cases hgi
              · simp only [add_to_room]
                rw [if_neg hdm, if_neg (by simp [hadm]), hgi]
          | ok ms2 =>
              refine Or.inr (Or.inr (Or.inr (Or.inr ⟨room, ms2, rfl, ?_⟩)))
              simp only [add_to_room]
              rw [if_neg hdm, if_neg (by simp [hadm]), hgi]
        · refine Or.inr (Or.inr (Or.inl ⟨room, rfl, ?_⟩))
          simp only [add_to_room]
          rw [if_neg hdm, if_pos (by simp [hadm])]

/-! Claim theorems. -/

/-- C1 counterexample: on the concrete GROUP_DM room holding 8 members,
an AddMembers by the ADMIN member with 2 new members is rejected with
`400 Bad Request` before any store write is executed, so the persisted
membership still has 8 members — not 9 as the claim states. -/
theorem c1_persisted_size_is_8_not_9 :
    (add_to_room (some groupDmRoom8) twoNew ("m1") ("g8") true).response
      = Outcome.err 400 "the max number for a Group_DM is 9" ∧
    (add_to_room (some groupDmRoom8) twoNew ("m1") ("g8") true).writes = [] ∧
    (storeAfter eightMembers
      (add_to_room (some groupDmRoom8) twoNew ("m1") ("g8") true).writes true).length = 8 ∧
    ¬ (storeAfter eightMembers
      (add_to_room (some groupDmRoom8) twoNew ("m1") ("g8") true).writes true).length = 9 := by
  decide

/-- C1 (amended): for a GROUP_DM room with 8 members, an AddMembers by a
current ADMIN member with 2 new members (the first one fresh) inserts
the first new member into the working copy (its size becomes 9), rejects
the second insertion before persistence, reports `400 Bad Request` for
the batch, and the persisted membership is unchanged, still of size 8. -/
theorem groupDm_batch_crossing_limit (i rid : String) (ms : Members)
    (p1 p2 actor : String) (v1 v2 : RoomMember) (ok : Bool)
    (hlen : ms.length = 8)
    (hadm : (mget ms actor).map RoomMember.role = some Role.ADMIN)
    (hfresh : p1 ∉ memKeys ms) :
    (minsert ms p1 v1).length = 9 ∧
    groupDmInsert ms [(p1, v1), (p2, v2)] = Except.error () ∧
    (add_to_room (some ⟨i, RoomType.GROUP_DM, ms⟩) [(p1, v1), (p2, v2)] actor rid ok).response
      = Outcome.err 400 "the max number for a Group_DM is 9" ∧
    (add_to_room (some ⟨i, RoomType.GROUP_DM, ms⟩) [(p1, v1), (p2, v2)] actor rid ok).writes
      = [] ∧
    storeAfter ms
      (add_to_room (some ⟨i, RoomType.GROUP_DM, ms⟩) [(p1, v1), (p2, v2)] actor rid ok).writes
      ok = ms := by
  have h9 : (minsert ms p1 v1).length = 9 := by
    rw [length_minsert_of_not_mem ms p1 v1 hfresh, hlen]
  have hgi := groupDmInsert_crossing ms p1 p2 v1 v2 [] hlen hfresh
  refine ⟨h9, hgi, ?_, ?_, ?_⟩ <;> simp [add_to_room, hadm, hgi, storeAfter]

/-- C1 witness: the amended statement instantiated on the concrete
8-member GROUP_DM room. -/
theorem groupDm_batch_crossing_limit_witness :
    (minsert eightMembers ("n1") plainMem).length = 9 ∧
    groupDmInsert eightMembers [(("n1"), plainMem), (("n2"), plainMem)] = Except.error () ∧
    (add_to_room (some ⟨("g8"), RoomType.GROUP_DM, eightMembers⟩)
      [(("n1"), plainMem), (("n2"), plainMem)] ("m1") ("g8") true).response
      = Outcome.err 400 "the max number for a Group_DM is 9" ∧
    (add_to_room (some ⟨("g8"), RoomType.GROUP_DM, eightMembers⟩)
      [(("n1"), plainMem), (("n2"), plainMem)] ("m1") ("g8") true).writes = [] ∧
    storeAfter eightMembers
      (add_to_room (some ⟨("g8"), RoomType.GROUP_DM, eightMembers⟩)
        [(("n1"), plainMem), (("n2"), plainMem)] ("m1") ("g8") true).writes
      true = eightMembers :=
  groupDm_batch_crossing_limit ("g8") ("g8") eightMembers ("n1") ("n2") ("m1")
    plainMem plainMem true (by decide) (by decide) (by decide)

/-- C2 counterexample: on the 9-member GROUP_DM room, an AddMembers by an
actor who is not a current ADMIN member is denied with
`401 Unauthorized`, not with `400 Bad Request` as the claim states for
every AddMembers operation on such a room. -/
theorem c2_nonadmin_on_full_groupDm_gets_401 :
    (add_to_room (some groupDmRoom9) [(("n1"), plainMem)] ("zz") ("g9") true).response
      = Outcome.err 401 "member not in room or not an admin" ∧
    (add_to_room (some groupDmRoom9) [(("n1"), plainMem)] ("zz") ("g9") true).response
      ≠ Outcome.err 400 "the max number for a Group_DM is 9" := by
  decide

/-- C2 (amended): for every GROUP_DM room whose current membership count
is 9, an AddMembers by a current ADMIN member with any non-empty
new-member set is denied with `400 Bad Request` and no store write is
executed, so the room's membership is not persisted. -/
theorem groupDm_full_addMembers_denied (i rid actor : String)
    (ms news : Members) (ok : Bool) (hlen : ms.length = 9)
    (hadm : (mget ms actor).map RoomMember.role = some Role.ADMIN)
    (hne : news ≠ []) :
    (add_to_room (some ⟨i, RoomType.GROUP_DM, ms⟩) news actor rid ok).response
      = Outcome.err 400 "the max number for a Group_DM is 9" ∧
    (add_to_room (some ⟨i, RoomType.GROUP_DM, ms⟩) news actor rid ok).writes = [] ∧
    storeAfter ms
      (add_to_room (some ⟨i, RoomType.GROUP_DM, ms⟩) news actor rid ok).writes ok
      = ms := by
  cases news with
  | nil => exact absurd rfl hne
  | cons hd rest =>
      obtain ⟨p, v⟩ := hd
      have hgi : groupDmInsert ms ((p, v) :: rest) = Except.error () :=
        groupDmInsert_full ms p v rest (by rw [hlen])
      refine ⟨?_, ?_, ?_⟩ <;> simp [add_to_room, hadm, hgi, storeAfter]

/-- C2 witness: the amended statement instantiated on the concrete
9-member GROUP_DM room. -/
theorem groupDm_full_addMembers_denied_witness :
    (add_to_room (some ⟨("g9"), RoomType.GROUP_DM, nineMembers⟩)
      [(("n1"), plainMem)] ("m1") ("g9") true).response
      = Outcome.err 400 "the max number for a Group_DM is 9" ∧
    (add_to_room (some ⟨("g9"), RoomType.GROUP_DM, nineMembers⟩)
      [(("n1"), plainMem)] ("m1") ("g9") true).writes = [] ∧
    storeAfter nineMembers
      (add_to_room (some ⟨("g9"), RoomType.GROUP_DM, nineMembers⟩)
        [(("n1"), plainMem)] ("m1") ("g9") true).writes true = nineMembers :=
  groupDm_full_addMembers_denied ("g9") ("g9") ("m1") nineMembers
    [(("n1"), plainMem)] true (by decide) (by decide) (by decide)

/-- C3: DM rooms are membership-immutable: AddMembers on a DM room is
denied `403` for every actor with no store write, RemoveMember on any
non-CHANNEL room (DM included) is denied `403` with no store write, so a
DM room's stored membership — its 2 creation-time members — is unchanged
by every membership operation. -/
theorem dm_membership_immutable (room : Room) (news : Members)
    (actor target rid : String) (ok : Bool) :
    (room.room_type = RoomType.DM →
      (add_to_room (some room) news actor rid ok).response
        = Outcome.err 403 "DM room or not found" ∧
      (add_to_room (some room) news actor rid ok).writes = [] ∧
      storeAfter room.room_members
        (add_to_room (some room) news actor rid ok).writes ok
        = room.room_members) ∧
    (room.room_type ≠ RoomType.CHANNEL →
      (remove_member (some room) actor target).response
        = Outcome.err 403 "unable to remove room member" ∧
      (remove_member (some room) actor target).writes = []) := by
  constructor
  · intro hdm
    refine ⟨?_, ?_, ?_⟩ <;> simp [add_to_room, hdm, storeAfter]
  · intro hch
    refine ⟨?_, ?_⟩ <;> simp [remove_member, hch]

/-- C3 witness: the statement instantiated on the concrete DM room. -/
theorem dm_membership_immutable_witness :
    ((add_to_room (some dmRoom) twoNew ("alice") ("dm1") true).response
        = Outcome.err 403 "DM room or not found" ∧
     (add_to_room (some dmRoom) twoNew ("alice") ("dm1") true).writes = [] ∧
     storeAfter dmRoom.room_members
       (add_to_room (some dmRoom) twoNew ("alice") ("dm1") true).writes true
       = dmRoom.room_members) ∧
    ((remove_member (some dmRoom) ("alice") ("bob")).response
        = Outcome.err 403 "unable to remove room member" ∧
     (remove_member (some dmRoom) ("alice") ("bob")).writes = []) :=
  ⟨(dm_membership_immutable dmRoom twoNew ("alice") ("bob") ("dm1") true).1 rfl,
   (dm_membership_immutable dmRoom twoNew ("alice") ("bob") ("dm1") true).2 (by decide)⟩

/-- C4: every policy denial of AddMembers other than the
424 dependency-failure path, and every error of RemoveMember, is raised
before any store write is executed, so the stored room state is
unchanged on every deny path. -/
theorem deny_before_persist (fetched : Option Room) (news : Members)
    (actor target rid : String) (ok : Bool) (s : Nat) (d : String) :
    ((add_to_room fetched news actor rid ok).response = Outcome.err s d → s ≠ 424 →
      (add_to_room fetched news actor rid ok).writes = []) ∧
    ((remove_member fetched actor target).response = Outcome.err s d →
      (remove_member fetched actor target).writes = []) := by
  constructor
  · intro hr hs
    rcases add_to_room_shape fetched news actor rid ok with
      ⟨_, he⟩ | ⟨room, _, _, he⟩ | ⟨room, _, he⟩ | ⟨room, _, _, he⟩ | ⟨room, ms2, _, he⟩
    · rw [he] at hr; simp at hr
    · rw [he]
    · rw [he]
    · rw [he]
    · rw [he] at hr
      cases ok with
      | true => simp at hr
      | false =>
          rw [if_neg (show ¬ (false = true) by decide)] at hr
          injection hr with h1 h2
          exact absurd h1.symm hs
  · intro _
    exact remove_member_writes fetched actor target

/-- C4 witness: both parts instantiated on the concrete DM room, where
the denial is the 403 of the DM / non-CHANNEL checks. -/
theorem deny_before_persist_witness :
    (add_to_room (some dmRoom) twoNew ("alice") ("dm1") true).writes = [] ∧
    (remove_member (some dmRoom) ("alice") ("bob")).writes = [] :=
  ⟨(deny_before_persist (some dmRoom) twoNew ("alice") ("bob") ("dm1") true 403
      ("DM room or not found")).1 (by decide) (by decide),
   (deny_before_persist (some dmRoom) twoNew ("alice") ("bob") ("dm1") true 403
      ("unable to remove room member")).2 (by decide)⟩

/-- C5: on a CHANNEL room, AddMembers by an actor who is not a current
ADMIN member is denied `401 Unauthorized` with no store write; by a
current ADMIN member (store acknowledging) it succeeds and the resulting
membership mapping is the old mapping merged with the new-member
mapping, entries of the same id overwritten by the new mapping, with no
size limit applied. -/
theorem channel_addMembers (room : Room) (news : Members) (actor rid : String)
    (hch : room.room_type = RoomType.CHANNEL)
    (hnd : (memKeys news).Nodup) :
    ((mget room.room_members actor).map RoomMember.role ≠ some Role.ADMIN →
      ∀ ok, (add_to_room (some room) news actor rid ok).response
          = Outcome.err 401 "member not in room or not an admin" ∧
        (add_to_room (some room) news actor rid ok).writes = []) ∧
    ((mget room.room_members actor).map RoomMember.role = some Role.ADMIN →
      (add_to_room (some room) news actor rid true).response
          = Outcome.ok { room with room_members := mupdate room.room_members news } ∧
      ∀ k, mget (mupdate room.room_members news) k =
        match mget news k with
        | some v => some v
        | none => mget room.room_members k) := by
  have hdm : ¬ room.room_type = RoomType.DM := by rw [hch]; intro h; cases h
  constructor
  · intro hna ok
    refine ⟨?_, ?_⟩ <;> simp [add_to_room, hdm, hna]
  · intro hadm
    constructor
    · simp [add_to_room, hdm, hadm, hch]
    · exact fun k => mget_mupdate room.room_members news k hnd

/-- C5 witness: the statement instantiated on the concrete CHANNEL room,
with plain member bob denied and admin alice succeeding. -/
theorem channel_addMembers_witness :
    (add_to_room (some channelRoom) twoNew ("bob") ("ch1") true).response
      = Outcome.err 401 "member not in room or not an admin" ∧
    (add_to_room (some channelRoom) twoNew ("alice") ("ch1") true).response
      = Outcome.ok
          { channelRoom with room_members := mupdate channelRoom.room_members twoNew } :=
  ⟨((channel_addMembers channelRoom twoNew ("bob") ("ch1") rfl (by decide)).1
      (by decide) true).1,
   ((channel_addMembers channelRoom twoNew ("alice") ("ch1") rfl (by decide)).2
      (by decide)).1⟩

/-- C6 (code bug): on the concrete CHANNEL room the authorization logic
matches the claim — plain member bob removing admin alice is denied
`403 Forbidden` — but both permitted paths, admin other-removal and
self-removal, end in an uncaught AttributeError (the un-awaited
`DB.update` of line 152 followed by `.dict()` on a plain dict at line
161) instead of succeeding, and no store write is executed. -/
theorem c6_channel_remove_permitted_paths_crash :
    (remove_member (some channelRoom) ("bob") ("alice")).response
      = Outcome.err 403 "unable to remove room member" ∧
    (remove_member (some channelRoom) ("alice") ("bob")).response
      = Outcome.pyCrash ("AttributeError") ∧
    (remove_member (some channelRoom) ("alice") ("bob")).writes = [] ∧
    (remove_member (some channelRoom) ("bob") ("bob")).response
      = Outcome.pyCrash ("AttributeError") := by
  decide

/-- C7 (code bug): AddMembers does surface a store failure as
`424 Failed Dependency`, but RemoveMember cannot: the `DB.update` of
line 152 is never awaited, so no store write is executed, a store
failure is unobservable on that path, and the call ends in an uncaught
AttributeError instead of 424 or success. -/
theorem c7_remove_never_surfaces_store_failure :
    (add_to_room (some channelRoom) [(("carol"), plainMem)] ("alice") ("ch1")
        false).response
      = Outcome.err 424 "failed to add new members to room" ∧
    (remove_member (some channelRoom) ("alice") ("bob")).writes = [] ∧
    (remove_member (some channelRoom) ("alice") ("bob")).response
      = Outcome.pyCrash ("AttributeError") := by
  decide

/-- C8: whenever an AddMembers call passes the policy checks — that is, a
store write is executed — and the store does not acknowledge it, the
caller receives `424 Failed Dependency` and the member-add notification
task is nevertheless still scheduled. -/
theorem addMembers_fail_still_notifies (fetched : Option Room)
    (news : Members) (actor rid : String)
    (hw : (add_to_room fetched news actor rid false).writes ≠ []) :
    (add_to_room fetched news actor rid false).response
      = Outcome.err 424 "failed to add new members to room" ∧
    (add_to_room fetched news actor rid false).notified = true := by
  rcases add_to_room_shape fetched news actor rid false with
    ⟨_, he⟩ | ⟨room, _, _, he⟩ | ⟨room, _, he⟩ | ⟨room, _, _, he⟩ | ⟨room, ms2, _, he⟩
  · rw [he] at hw; simp at hw
  · rw [he] at hw; simp at hw
  · rw [he] at hw; simp at hw
  · rw [he] at hw; simp at hw
  · rw [he]
    exact ⟨by simp, rfl⟩

/-- C8 witness: the statement instantiated on the concrete CHANNEL room
with admin alice and a failing store. -/
theorem addMembers_fail_still_notifies_witness :
    (add_to_room (some channelRoom) twoNew ("alice") ("ch1") false).response
      = Outcome.err 424 "failed to add new members to room" ∧
    (add_to_room (some channelRoom) twoNew ("alice") ("ch1") false).notified = true :=
  addMembers_fail_still_notifies (some channelRoom) twoNew ("alice") ("ch1") (by decide)

/-- C9 counterexample: on the concrete CHANNEL room, plain member bob
removing the absent id zed is denied `403 Forbidden` — the role check of
line 215 runs before the target-existence check inside `remove_mem` —
not `404 NotFound` as the claim states for every absent target. -/
theorem c9_nonadmin_absent_target_gets_403 :
    mget channelRoom.room_members ("zed") = none ∧
    (remove_member (some channelRoom) ("bob") ("zed")).response
      = Outcome.err 403 "unable to remove room member" ∧
    (remove_member (some channelRoom) ("bob") ("zed")).response
      ≠ Outcome.err 404 "user not a member of the room" := by
  decide

/-- C9 (amended): a RemoveMember on a CHANNEL room by a current ADMIN
member whose target id is not a key of the membership mapping yields
`404 NotFound` with no store write — never a silent no-op; in
particular, on a CHANNEL room with an ADMIN actor and a non-member
target, RemoveMember yields NotFound. -/
theorem remove_absent_target_not_found (room : Room) (actor target : String)
    (hch : room.room_type = RoomType.CHANNEL)
    (hadm : (mget room.room_members actor).map RoomMember.role = some Role.ADMIN)
    (habs : mget room.room_members target = none) :
    (remove_member (some room) actor target).response
      = Outcome.err 404 "user not a member of the room" ∧
    (remove_member (some room) actor target).writes = [] := by
  cases hm : mget room.room_members actor with
  | none => rw [hm] at hadm; cases hadm
  | some member =>
      have hrole : member.role = Role.ADMIN := by
        rw [hm] at hadm; simpa using hadm
      have hne : actor ≠ target := by
        intro e; rw [e, habs] at hm; cases hm
      have h404 := remove_mem_absent room target habs
      refine ⟨?_, ?_⟩ <;> simp [remove_member, hch, hm, hne, hrole, h404]

/-- C9 witness: the amended statement instantiated on the concrete
CHANNEL room with admin alice and absent target zed. -/
theorem remove_absent_target_not_found_witness :
    (remove_member (some channelRoom) ("alice") ("zed")).response
      = Outcome.err 404 "user not a member of the room" ∧
    (remove_member (some channelRoom) ("alice") ("zed")).writes = [] :=
  remove_absent_target_not_found channelRoom ("alice") ("zed") rfl (by decide) (by decide)

/-- C10: the actor-membership lookup of line 102 dereferences the fetched
room before the `room is None` test of line 104, so a fetch that returns
no room raises AttributeError, and the `403 DM room or not found`
response is only ever produced for an existing DM room. -/
theorem missing_room_crashes_before_dm_check (fetched : Option Room)
    (news : Members) (actor rid : String) (ok : Bool) :
    (fetched = none →
      (add_to_room fetched news actor rid ok).response
        = Outcome.pyCrash ("AttributeError")) ∧
    (∀ d, (add_to_room fetched news actor rid ok).response = Outcome.err 403 d →
      ∃ room, fetched = some room ∧ room.room_type = RoomType.DM) := by
  constructor
  · intro h; subst h; rfl
  · intro d hr
    rcases add_to_room_shape fetched news actor rid ok with
      ⟨_, he⟩ | ⟨room, hf, hdm, he⟩ | ⟨room, _, he⟩ | ⟨room, _, _, he⟩ | ⟨room, ms2, _, he⟩
    · rw [he] at hr; simp at hr
    · exact ⟨room, hf, hdm⟩
    · rw [he] at hr; simp at hr
    · rw [he] at hr; simp at hr
    · rw [he] at hr
      cases ok with
      | true => simp at hr
      | false => simp at hr

/-- C10 witness: a missing room crashes with AttributeError, and the 403
instance produced by the concrete DM room indeed comes from a DM
room. -/
theorem missing_room_crashes_before_dm_check_witness :
    (add_to_room none twoNew ("alice") ("r0") true).response
      = Outcome.pyCrash ("AttributeError") ∧
    dmRoom.room_type = RoomType.DM := by
  refine ⟨(missing_room_crashes_before_dm_check none twoNew ("alice") ("r0") true).1 rfl, ?_⟩
  obtain ⟨room, hf, hdm⟩ :=
    (missing_room_crashes_before_dm_check (some dmRoom) twoNew ("alice") ("r0") true).2
      ("DM room or not found") (by decide)
  rw [Option.some.inj hf]
  exact hdm

end ZcMessaging
